import Mathlib

/-
Verification of the TripletRansac matching components (Code/tools/Matcher.py
and Code/camera/Frame.py) against their design specification.

The Python code is shallowly embedded: descriptor distances and the ratio
threshold are rationals, the external k-nearest-neighbour search is abstracted
as an input list of candidate lists, Python `None` fall-throughs become
`Option.none`, and console diagnostics become an explicit list of messages.
-/

/-- A single descriptor match record, mirroring the fields of an OpenCV
`DMatch` that the code reads: query index, train index and distance. -/
structure DMatch where
  queryIdx : Nat
  trainIdx : Nat
  distance : ℚ
deriving DecidableEq

/-- The `for m, n in matches` loop body of `Matcher._filter`
(Matcher.py lines 90-97): walk the candidate list in order, keep the best
match `m` of each pair whenever `m.distance < filter_test * n.distance`
(Lowe's test).  An element that does not unpack into exactly two values
raises `ValueError` in Python; here that aborts the whole loop with `none`,
discarding matches accepted earlier, exactly as the exception does. -/
def Matcher.filterLoop : List (List DMatch) → ℚ → Option (List DMatch)
  | [], _ => some []
  | [m, n] :: rest, filter_test =>
    match Matcher.filterLoop rest filter_test with
    | some good => some (if m.distance < filter_test * n.distance then m :: good else good)
    | none => none
  | _ :: _, _ => none

/-- `Matcher._filter` (Matcher.py lines 72-100): runs the loop inside
`try ... except ValueError`.  On success it returns the accepted list and
prints nothing; when the loop raises, the handler prints
'Filter matching error' and the function falls through returning `None`.
The second component is the console output. -/
def Matcher._filter (matchList : List (List DMatch)) (filter_test : ℚ) :
    Option (List DMatch) × List String :=
  match Matcher.filterLoop matchList filter_test with
  | some good => (some good, [])
  | none => (none, ["Filter matching error"])

/-- The search engine configurations `Matcher.__init__` can build
(Matcher.py lines 53-65): the LSH index used when `search_algorithm == 6`
(table_number=6, key_size=12, multi_probe_level=1) or the KD-tree index
(trees=5); both carry the `checks` search parameter. -/
inductive CoreConfig where
  | flannLsh (table_number key_size multi_probe_level checks : Nat)
  | flannKdtree (trees checks : Nat)
deriving DecidableEq

/-- The attribute state of a `Matcher` object after `__init__`:
`num_features` and `filter_test` are always set; `core` is set only on the
FLANN branch; `console` records the coloured diagnostics printed. -/
structure MatcherState where
  num_features : Nat
  filter_test : ℚ
  core : Option CoreConfig
  console : List String
deriving DecidableEq

/-- Class constant `Matcher.FLANN`. -/
def Matcher.FLANN : String := "FLANN"

/-- Class constant `Matcher.DNN`. -/
def Matcher.DNN : String := "DNN"

/-- `Matcher.__init__` (Matcher.py lines 25-70): store `num_features` and
`filter_test`; on `method == FLANN` build the search engine (`core`),
choosing the LSH index for `search_algorithm == 6` and the KD-tree index
otherwise; on `method == DNN` print the to-be-done warning and configure
nothing; on any other method print 'Method not found' and configure
nothing.  No branch raises. -/
def Matcher.init (num_features : Nat) (method : String) (search_algorithm : Int)
    (filter_test : ℚ) : MatcherState :=
  if method = Matcher.FLANN then
    { num_features := num_features, filter_test := filter_test,
      core := some (if search_algorithm = 6 then
          CoreConfig.flannLsh 6 12 1 num_features
        else
          CoreConfig.flannKdtree 5 num_features),
      console := [] }
  else if method = Matcher.DNN then
    { num_features := num_features, filter_test := filter_test,
      core := none, console := ["DNN matcher to be done yet..."] }
  else
    { num_features := num_features, filter_test := filter_test,
      core := none, console := ["Method not found"] }

/-- Possible outcomes of `Matcher.match`: accessing `self.core.knnMatch`
with no `core` attribute raises (`attrError`); `_filter` may swallow a
`ValueError` and return `None` (`filterNone`); otherwise the good-match
list is returned. -/
inductive MatchOutcome where
  | attrError
  | filterNone
  | ok (good : List DMatch)
deriving DecidableEq

/-- `Matcher.match` (Matcher.py lines 102-122): query the search engine for
k=2 candidates per descriptor of the first frame (the engine's reply is the
`knnResult` parameter, since the search itself is external library code),
keep only the replies of length exactly 2, and return `_filter` of those
with the stored threshold. -/
def Matcher.matchFrames (self : MatcherState) (knnResult : List (List DMatch)) :
    MatchOutcome :=
  match self.core with
  | none => MatchOutcome.attrError
  | some _ =>
    match (Matcher._filter (knnResult.filter (fun x => x.length == 2))
        self.filter_test).1 with
    | some good => MatchOutcome.ok good
    | none => MatchOutcome.filterNone

/-- A `Frame` (Frame.py): the two file paths fixed at construction, plus
the pixel size `(width, height)` of the color image stored on disk, which
is what `PIL.Image.open(color_path).size` reports. -/
structure Frame where
  color_path : String
  depth_path : String
  color_size : Nat × Nat
deriving DecidableEq

/-- `Frame.get_size` (Frame.py lines 89-91): open the color image and
return its `(width, height)`. -/
def Frame.get_size (f : Frame) : Nat × Nat := f.color_size

/-- What an image accessor of `Frame` loaded: both files, or a single one. -/
inductive LoadedImages where
  | both (color depth : String)
  | one (path : String)
deriving DecidableEq

/-- `Frame.get_pil_images` (Frame.py lines 24-42): open both files when
`ret is None`, the color file for "rgb", the depth file for "depth"; any
other selector falls through every branch and returns `None` without
opening a file. -/
def Frame.get_pil_images (f : Frame) (ret : Option String) : Option LoadedImages :=
  match ret with
  | none => some (LoadedImages.both f.color_path f.depth_path)
  | some r =>
    if r = "rgb" then some (LoadedImages.one f.color_path)
    else if r = "depth" then some (LoadedImages.one f.depth_path)
    else none

/-- `Frame.get_o3d_images` (Frame.py lines 44-62): same branch structure as
`get_pil_images`, reading through open3d. -/
def Frame.get_o3d_images (f : Frame) (ret : Option String) : Option LoadedImages :=
  match ret with
  | none => some (LoadedImages.both f.color_path f.depth_path)
  | some r =>
    if r = "rgb" then some (LoadedImages.one f.color_path)
    else if r = "depth" then some (LoadedImages.one f.depth_path)
    else none

/-- `Frame.get_cv2_images` (Frame.py lines 64-80): same branch structure as
`get_pil_images`, reading through cv2. -/
def Frame.get_cv2_images (f : Frame) (ret : Option String) : Option LoadedImages :=
  match ret with
  | none => some (LoadedImages.both f.color_path f.depth_path)
  | some r =>
    if r = "rgb" then some (LoadedImages.one f.color_path)
    else if r = "depth" then some (LoadedImages.one f.depth_path)
    else none

/-- Python slice `xs[:limit]`: the first `limit` elements for a
non-negative bound, and all but the last `-limit` elements for a negative
bound (empty when the bound exceeds the length). -/
def pySliceTo {α : Type} (xs : List α) (limit : Int) : List α :=
  if 0 ≤ limit then xs.take limit.toNat
  else xs.take (xs.length - (-limit).toNat)

/-- `Matcher.draw_matches` (Matcher.py lines 124-170): assert that both
frames report the same size (a differing size is the `none` outcome, the
`AssertionError`); draw the matches `matches[:limit]` over the two color
images; resize the composite to `(width * 2, height)` of the first frame.
The result carries the final image size and the list of matches drawn. -/
def Matcher.draw_matches (img_1 img_2 : Frame) (matchList : List DMatch)
    (limit : Int) : Option ((Nat × Nat) × List DMatch) :=
  if img_1.get_size = img_2.get_size then
    some (((img_1.get_size).1 * 2, (img_1.get_size).2), pySliceTo matchList limit)
  else
    none

/-- The decision `Matcher._filter` takes on one well-formed pair: keep the
best match when it passes Lowe's test at threshold `filter_test`. -/
def Matcher.lowePick (filter_test : ℚ) : List DMatch → Option DMatch
  | [m, n] => if m.distance < filter_test * n.distance then some m else none
  | _ => none

/-- Inversion for `lowePick`: a kept match comes from a two-element pair
whose best element it is, and it passed the ratio test. -/
theorem Matcher.lowePick_eq_some {t : ℚ} {l : List DMatch} {m : DMatch}
    (h : Matcher.lowePick t l = some m) :
    ∃ n, l = [m, n] ∧ m.distance < t * n.distance := by
  match l with
  | [] => simp [Matcher.lowePick] at h
  | [a] => simp [Matcher.lowePick] at h
  | [a, b] =>
    by_cases hc : a.distance < t * b.distance
    · simp [Matcher.lowePick, hc] at h
      exact ⟨b, by rw [h], by rw [← h]; exact hc⟩
    · simp [Matcher.lowePick, hc] at h
  | a :: b :: c :: tl => simp [Matcher.lowePick] at h

/-- When the loop of `_filter` finishes, the accepted list is exactly the
in-order selection of the passing pairs. -/
theorem Matcher.filterLoop_eq_filterMap {ms : List (List DMatch)} {t : ℚ}
    {good : List DMatch} (h : Matcher.filterLoop ms t = some good) :
    good = ms.filterMap (Matcher.lowePick t) := by
  induction ms generalizing good with
  | nil =>
    simp [Matcher.filterLoop] at h
    simp [← h]
  | cons l rest ih =>
    match l with
    | [] => simp [Matcher.filterLoop] at h
    | [a] => simp [Matcher.filterLoop] at h
    | [a, b] =>
      cases hrec : Matcher.filterLoop rest t with
      | none => simp [Matcher.filterLoop, hrec] at h
      | some g =>
        simp [Matcher.filterLoop, hrec] at h
        have hg := ih hrec
        by_cases hc : a.distance < t * b.distance <;>
          simp_all [List.filterMap_cons, Matcher.lowePick, hc]
    | a :: b :: c :: tl => simp [Matcher.filterLoop] at h

/-- When every element of the candidate list is a two-element pair, the
loop of `_filter` completes and returns the in-order passing selection. -/
theorem Matcher.filterLoop_eq_some_of_len2 {ms : List (List DMatch)} {t : ℚ}
    (h : ∀ l ∈ ms, l.length = 2) :
    Matcher.filterLoop ms t = some (ms.filterMap (Matcher.lowePick t)) := by
  induction ms with
  | nil => simp [Matcher.filterLoop]
  | cons l rest ih =>
    have hl : l.length = 2 := h l (by simp)
    have hrest : ∀ x ∈ rest, x.length = 2 := fun x hx => h x (by simp [hx])
    match l with
    | [] => simp at hl
    | [a] => simp at hl
    | [a, b] =>
      by_cases hc : a.distance < t * b.distance <;>
        simp [Matcher.filterLoop, ih hrest, List.filterMap_cons, Matcher.lowePick, hc]
    | a :: b :: c :: tl => simp at hl

/-- A single element that is not a two-element pair makes the loop of
`_filter` raise, so the whole call yields no list. -/
theorem Matcher.filterLoop_eq_none_of_malformed {ms : List (List DMatch)} {t : ℚ}
    {l : List DMatch} (hm : l ∈ ms) (hl : l.length ≠ 2) :
    Matcher.filterLoop ms t = none := by
  induction ms with
  | nil => simp at hm
  | cons x rest ih =>
    rcases List.mem_cons.mp hm with h | h
    · subst h
      match l with
      | [] => simp [Matcher.filterLoop]
      | [a] => simp [Matcher.filterLoop]
      | [a, b] => simp at hl
      | a :: b :: c :: tl => simp [Matcher.filterLoop]
    · match x with
      | [] => simp [Matcher.filterLoop]
      | [a] => simp [Matcher.filterLoop]
      | [a, b] => simp [Matcher.filterLoop, ih h]
      | a :: b :: c :: tl => simp [Matcher.filterLoop]

/-- The returned value of `_filter` is `some` exactly when the loop
finished. -/
theorem Matcher._filter_fst_eq_some {ms : List (List DMatch)} {t : ℚ}
    {good : List DMatch} :
    (Matcher._filter ms t).1 = some good ↔ Matcher.filterLoop ms t = some good := by
  unfold Matcher._filter
  cases h : Matcher.filterLoop ms t <;> simp [h]

/-- Every match accepted by the loop came from a two-element pair of the
input that passed the ratio test. -/
theorem Matcher.filterLoop_mem_sound {ms : List (List DMatch)} {t : ℚ}
    {good : List DMatch} (h : Matcher.filterLoop ms t = some good)
    {m : DMatch} (hm : m ∈ good) :
    ∃ n, [m, n] ∈ ms ∧ m.distance < t * n.distance := by
  rw [Matcher.filterLoop_eq_filterMap h] at hm
  rcases List.mem_filterMap.mp hm with ⟨l, hlmem, hpick⟩
  rcases Matcher.lowePick_eq_some hpick with ⟨n, rfl, hlt⟩
  exact ⟨n, hlmem, hlt⟩

/-- Inversion for `Matcher.match`: an `ok` outcome means a search engine
was configured and `_filter` returned a list on the length-2 candidates. -/
theorem Matcher.matchFrames_ok_inv {self : MatcherState}
    {knn : List (List DMatch)} {good : List DMatch}
    (h : Matcher.matchFrames self knn = MatchOutcome.ok good) :
    (∃ c, self.core = some c) ∧
      Matcher.filterLoop (knn.filter (fun x => x.length == 2)) self.filter_test =
        some good := by
  unfold Matcher.matchFrames at h
  cases hcore : self.core with
  | none => rw [hcore] at h; simp at h
  | some c =>
    rw [hcore] at h
    cases hfil : (Matcher._filter (knn.filter (fun x => x.length == 2))
        self.filter_test).1 with
    | none => rw [hfil] at h; simp at h
    | some g =>
      rw [hfil] at h
      simp at h
      subst h
      exact ⟨⟨c, rfl⟩, Matcher._filter_fst_eq_some.mp hfil⟩

/-- C1: for every ratio threshold in (0,1], every match in the list
returned by `Matcher._filter` — and hence by `Matcher.match` — comes from a
candidate pair (best, second-best) of the input with
best.distance < filter_test * second_best.distance; no returned match
violates this. -/
theorem C1_ratio_test_sound (filter_test : ℚ)
    (hpos : 0 < filter_test) (hle : filter_test ≤ 1) :
    (∀ ms good, (Matcher._filter ms filter_test).1 = some good →
      ∀ m ∈ good, ∃ n, [m, n] ∈ ms ∧ m.distance < filter_test * n.distance) ∧
    (∀ self knn good, self.filter_test = filter_test →
      Matcher.matchFrames self knn = MatchOutcome.ok good →
      ∀ m ∈ good, ∃ n, [m, n] ∈ knn ∧ m.distance < filter_test * n.distance) := by
  constructor
  · intro ms good h m hm
    exact Matcher.filterLoop_mem_sound (Matcher._filter_fst_eq_some.mp h) hm
  · intro self knn good hft h m hm
    rcases Matcher.matchFrames_ok_inv h with ⟨-, hloop⟩
    rw [hft] at hloop
    rcases Matcher.filterLoop_mem_sound hloop hm with ⟨n, hmem, hlt⟩
    exact ⟨n, List.mem_of_mem_filter hmem, hlt⟩

/-- Witness for C1 at threshold 7/10 on the single candidate pair with
distances 1 and 10, whose best match is accepted. -/
theorem C1_witness :
    ∃ n, [(⟨0, 0, 1⟩ : DMatch), n] ∈ [[(⟨0, 0, 1⟩ : DMatch), ⟨0, 1, 10⟩]] ∧
      (⟨0, 0, 1⟩ : DMatch).distance < (7 / 10 : ℚ) * n.distance :=
  (C1_ratio_test_sound (7 / 10) (by norm_num) (by norm_num)).1
    [[⟨0, 0, 1⟩, ⟨0, 1, 10⟩]] [⟨0, 0, 1⟩]
    (by norm_num [Matcher._filter, Matcher.filterLoop]) ⟨0, 0, 1⟩ (by simp)

/-- C2: every match returned by `Matcher.match` comes from a query whose
k-nearest-neighbour search yielded exactly 2 candidates (the match is the
first of them), and queries with a different candidate count contribute
nothing: the outcome on the raw search result equals the outcome on the
search result already restricted to length-2 entries. -/
theorem C2_exactly_two_candidates (self : MatcherState)
    (knn : List (List DMatch)) :
    (∀ good, Matcher.matchFrames self knn = MatchOutcome.ok good →
      ∀ m ∈ good, ∃ x ∈ knn, x.length = 2 ∧ x.head? = some m) ∧
    Matcher.matchFrames self knn =
      Matcher.matchFrames self (knn.filter (fun x => x.length == 2)) := by
  constructor
  · intro good h m hm
    rcases Matcher.matchFrames_ok_inv h with ⟨-, hloop⟩
    rcases Matcher.filterLoop_mem_sound hloop hm with ⟨n, hmem, -⟩
    exact ⟨[m, n], List.mem_of_mem_filter hmem, by simp, by simp⟩
  · unfold Matcher.matchFrames
    cases self.core with
    | none => rfl
    | some c => simp [List.filter_filter]

/-- Witness for C2: a FLANN matcher on one length-2 reply and one length-1
reply accepts the best match of the length-2 reply. -/
theorem C2_witness :
    ∃ x ∈ [[(⟨0, 0, 1⟩ : DMatch), ⟨0, 1, 10⟩], [⟨1, 2, 5⟩]], x.length = 2 ∧
      x.head? = some (⟨0, 0, 1⟩ : DMatch) :=
  (C2_exactly_two_candidates (Matcher.init 50 "FLANN" 6 (7 / 10))
      [[⟨0, 0, 1⟩, ⟨0, 1, 10⟩], [⟨1, 2, 5⟩]]).1 [⟨0, 0, 1⟩]
    (by norm_num [Matcher.matchFrames, Matcher.init, Matcher.FLANN,
      Matcher._filter, Matcher.filterLoop, List.filter])
    ⟨0, 0, 1⟩ (by simp)

/-- C5: a successful `Matcher.match` returns exactly the in-order selection
of the best candidates: the length-2 replies of the search, in the order
the search returned them, restricted to those passing the ratio test. -/
theorem C5_order_preserved (self : MatcherState) (knn : List (List DMatch))
    (good : List DMatch)
    (h : Matcher.matchFrames self knn = MatchOutcome.ok good) :
    good = (knn.filter (fun x => x.length == 2)).filterMap
      (Matcher.lowePick self.filter_test) :=
  Matcher.filterLoop_eq_filterMap (Matcher.matchFrames_ok_inv h).2

/-- Witness for C5 on a concrete two-reply search result. -/
theorem C5_witness :
    ([(⟨0, 0, 1⟩ : DMatch)] : List DMatch) =
      (([[(⟨0, 0, 1⟩ : DMatch), ⟨0, 1, 10⟩], [⟨1, 2, 5⟩]]).filter
          (fun x => x.length == 2)).filterMap
        (Matcher.lowePick (Matcher.init 50 "FLANN" 6 (7 / 10)).filter_test) :=
  C5_order_preserved (Matcher.init 50 "FLANN" 6 (7 / 10))
    [[⟨0, 0, 1⟩, ⟨0, 1, 10⟩], [⟨1, 2, 5⟩]] [⟨0, 0, 1⟩]
    (by norm_num [Matcher.matchFrames, Matcher.init, Matcher.FLANN,
      Matcher._filter, Matcher.filterLoop, List.filter])

/-- C10: when every element of the input unpacks into exactly two values,
`Matcher._filter` returns a list, never `None`; on the empty input it
returns the empty list, distinguishable from the malformed-input outcome. -/
theorem C10_wellformed_returns_list (t : ℚ) (ms : List (List DMatch)) :
    ((∀ l ∈ ms, l.length = 2) → ∃ g, (Matcher._filter ms t).1 = some g) ∧
    (Matcher._filter ([] : List (List DMatch)) t).1 = some [] := by
  constructor
  · intro h
    exact ⟨ms.filterMap (Matcher.lowePick t),
      Matcher._filter_fst_eq_some.mpr (Matcher.filterLoop_eq_some_of_len2 h)⟩
  · rfl

/-- Witness for C10 on a one-pair well-formed input. -/
theorem C10_witness :
    ∃ g, (Matcher._filter [[(⟨0, 0, 1⟩ : DMatch), ⟨0, 1, 10⟩]] (7 / 10)).1 =
      some g :=
  (C10_wellformed_returns_list (7 / 10) [[⟨0, 0, 1⟩, ⟨0, 1, 10⟩]]).1 (by decide)

/-- C4: an element that fails to unpack into exactly two values makes
`Matcher._filter` return no value (`none`) — discarding the matches already
accepted before the failure — and print the diagnostic. -/
theorem C4_malformed_returns_none (t : ℚ) (ms : List (List DMatch))
    (h : ∃ l ∈ ms, l.length ≠ 2) :
    Matcher._filter ms t = (none, ["Filter matching error"]) := by
  rcases h with ⟨l, hmem, hlen⟩
  unfold Matcher._filter
  rw [Matcher.filterLoop_eq_none_of_malformed hmem hlen]

/-- Witness for C4: the first pair passes the ratio test, yet the
malformed second element makes the whole call return no list. -/
theorem C4_witness :
    Matcher._filter [[(⟨0, 0, 1⟩ : DMatch), ⟨0, 1, 10⟩], [⟨1, 2, 5⟩]] (7 / 10) =
      (none, ["Filter matching error"]) :=
  C4_malformed_returns_none (7 / 10) [[⟨0, 0, 1⟩, ⟨0, 1, 10⟩], [⟨1, 2, 5⟩]]
    ⟨[⟨1, 2, 5⟩], by simp, by simp⟩

/-- C8: constructing a `Matcher` with a method that is neither FLANN nor
DNN prints 'Method not found', raises no exception (the constructor is a
total function), and configures no search engine, so every later `match`
call fails with the missing-attribute outcome. -/
theorem C8_unknown_method (num_features : Nat) (method : String)
    (search_algorithm : Int) (filter_test : ℚ)
    (h1 : method ≠ Matcher.FLANN) (h2 : method ≠ Matcher.DNN) :
    (Matcher.init num_features method search_algorithm filter_test).console =
        ["Method not found"] ∧
      (Matcher.init num_features method search_algorithm filter_test).core =
        none ∧
      ∀ knn, Matcher.matchFrames
          (Matcher.init num_features method search_algorithm filter_test) knn =
        MatchOutcome.attrError := by
  simp [Matcher.init, Matcher.matchFrames, h1, h2]

/-- Witness for C8 with the unrecognized method "SIFT". -/
theorem C8_witness :
    (Matcher.init 50 "SIFT" 6 (7 / 10)).console = ["Method not found"] ∧
      (Matcher.init 50 "SIFT" 6 (7 / 10)).core = none ∧
      ∀ knn, Matcher.matchFrames (Matcher.init 50 "SIFT" 6 (7 / 10)) knn =
        MatchOutcome.attrError :=
  C8_unknown_method 50 "SIFT" 6 (7 / 10) (by decide) (by decide)

/-- C9: for a selector outside {None, "rgb", "depth"}, each of the three
image accessors of `Frame` falls through every branch and returns `None`,
opening no file. -/
theorem C9_unknown_selector (f : Frame) (s : String)
    (h1 : s ≠ "rgb") (h2 : s ≠ "depth") :
    f.get_pil_images (some s) = none ∧ f.get_o3d_images (some s) = none ∧
      f.get_cv2_images (some s) = none := by
  simp [Frame.get_pil_images, Frame.get_o3d_images, Frame.get_cv2_images, h1, h2]

/-- Witness for C9 with the selector "both". -/
theorem C9_witness :
    (⟨"color.png", "depth.png", (100, 100)⟩ : Frame).get_pil_images
        (some "both") = none ∧
      (⟨"color.png", "depth.png", (100, 100)⟩ : Frame).get_o3d_images
        (some "both") = none ∧
      (⟨"color.png", "depth.png", (100, 100)⟩ : Frame).get_cv2_images
        (some "both") = none :=
  C9_unknown_selector ⟨"color.png", "depth.png", (100, 100)⟩ "both"
    (by decide) (by decide)

/-- C6: `draw_matches` fails its assertion exactly when the two frames
report different color-image sizes, and passes it whenever they agree. -/
theorem C6_size_assertion (img_1 img_2 : Frame) (matchList : List DMatch)
    (limit : Int) :
    Matcher.draw_matches img_1 img_2 matchList limit = none ↔
      img_1.get_size ≠ img_2.get_size := by
  by_cases h : img_1.get_size = img_2.get_size <;>
    simp [Matcher.draw_matches, h]

/-- Witness for C6 on a 100×100 frame against a 100×200 frame. -/
theorem C6_witness :
    Matcher.draw_matches ⟨"a.png", "b.png", (100, 100)⟩
        ⟨"c.png", "d.png", (100, 200)⟩ [] 0 = none :=
  (C6_size_assertion ⟨"a.png", "b.png", (100, 100)⟩
      ⟨"c.png", "d.png", (100, 200)⟩ [] 0).mpr (by decide)

/-- C7: on two same-size frames, `draw_matches` returns a composite image
of width twice the single-frame width and height the shared height. -/
theorem C7_composite_size (img_1 img_2 : Frame) (matchList : List DMatch)
    (limit : Int) (h : img_1.get_size = img_2.get_size) :
    Matcher.draw_matches img_1 img_2 matchList limit =
      some (((img_1.get_size).1 * 2, (img_1.get_size).2),
        pySliceTo matchList limit) := by
  simp [Matcher.draw_matches, h]

/-- Witness for C7: two 100×100 frames with limit 5 yield an image of
exactly 200×100. -/
theorem C7_witness :
    Matcher.draw_matches ⟨"a.png", "b.png", (100, 100)⟩
        ⟨"c.png", "d.png", (100, 100)⟩ [⟨0, 0, 1⟩] 5 =
      some ((200, 100), [⟨0, 0, 1⟩]) := by
  have h := C7_composite_size ⟨"a.png", "b.png", (100, 100)⟩
    ⟨"c.png", "d.png", (100, 100)⟩ [⟨0, 0, 1⟩] 5 rfl
  rw [h]
  norm_num [Frame.get_size, pySliceTo]

/-- C3 counterexample: with the default limit of -1, `draw_matches` on two
matches renders only the first one — `matches[:-1]` drops the last match —
so the default does not render all matches. -/
theorem C3_counterexample :
    Matcher.draw_matches ⟨"a.png", "b.png", (100, 100)⟩
        ⟨"c.png", "d.png", (100, 100)⟩ [⟨0, 0, 1⟩, ⟨1, 1, 2⟩] (-1) =
      some ((200, 100), [⟨0, 0, 1⟩]) ∧
    ([(⟨0, 0, 1⟩ : DMatch)] : List DMatch) ≠ [⟨0, 0, 1⟩, ⟨1, 1, 2⟩] := by
  constructor
  · norm_num [Matcher.draw_matches, Frame.get_size, pySliceTo]
  · simp

/-- C3 amended: with the default limit of -1 the visualization renders all
but the last match of the list (Python slice semantics of matches[:-1]);
for every non-negative limit it renders the first min(limit, length)
matches, hence at most `limit` of them. -/
theorem C3_amended_rendering (img_1 img_2 : Frame) (matchList : List DMatch)
    (h : img_1.get_size = img_2.get_size) :
    Matcher.draw_matches img_1 img_2 matchList (-1) =
        some (((img_1.get_size).1 * 2, (img_1.get_size).2),
          matchList.dropLast) ∧
      ∀ limit : Int, 0 ≤ limit →
        Matcher.draw_matches img_1 img_2 matchList limit =
            some (((img_1.get_size).1 * 2, (img_1.get_size).2),
              matchList.take limit.toNat) ∧
          (matchList.take limit.toNat).length ≤ limit.toNat := by
  constructor
  · rw [List.dropLast_eq_take]
    norm_num [Matcher.draw_matches, h, pySliceTo]
  · intro limit hlim
    constructor
    · simp [Matcher.draw_matches, h, pySliceTo, hlim]
    · simp [List.length_take]

/-- Witness for the amended C3: the default limit on a two-match list
renders exactly the first match. -/
theorem C3_witness :
    Matcher.draw_matches ⟨"p.png", "q.png", (100, 100)⟩
        ⟨"r.png", "s.png", (100, 100)⟩ [⟨0, 0, 1⟩, ⟨1, 1, 2⟩] (-1) =
      some ((200, 100), [⟨0, 0, 1⟩]) := by
  have h := (C3_amended_rendering ⟨"p.png", "q.png", (100, 100)⟩
    ⟨"r.png", "s.png", (100, 100)⟩ [⟨0, 0, 1⟩, ⟨1, 1, 2⟩] rfl).1
  rw [h]
  norm_num [Frame.get_size]
